import Mathlib

/-!
Verification development for the proton maintenance / persistence-dispatch core:
a shallow embedding of `persistencehandlerproxy.cpp` and
`maintenance_jobs_injector.cpp`, with theorems settling the specification
claims about them.
-/

/-- Caller-supplied completion handle for one feed operation (`FeedToken`). -/
abbrev FeedToken := Nat

/-- Opaque document payload of a put operation (`document::Document::SP`). -/
abbrev Document := Nat

/-- Opaque payload of an update operation (`document::DocumentUpdate::SP`). -/
abbrev DocumentUpdate := Nat

/-- Opaque document identifier of a remove operation (`document::DocumentId`). -/
abbrev DocumentId := Nat

/-- Bucket identifier: a used-bits count plus raw id bits (`document::BucketId`). -/
structure BucketId where
  usedBits : Nat
  id : Nat
deriving DecidableEq, Repr

/-- Modelled from the spec: `BucketId::stripUnused` is not under src/ (only its
callers are). The spec says bucket ids are "normalized (implementation-reserved
bits stripped) before internal use" and that "normalization is idempotent":
the bits of `id` above the used-bits count are the implementation-reserved
bits, and stripping masks them away while keeping the used-bits count. -/
def BucketId.stripUnused (b : BucketId) : BucketId :=
  ⟨b.usedBits, b.id % 2 ^ b.usedBits⟩

/-- A bucket id is normalized when stripping its unused bits changes nothing. -/
def BucketId.isNormalized (b : BucketId) : Bool :=
  b.stripUnused == b

/-- External provider bucket argument (`storage::spi::Bucket`), wrapping the
provider-raw bucket id. -/
structure Bucket where
  bucketId : BucketId
deriving DecidableEq, Repr

/-- Tagged feed operation variants built by the proxy write path
(`PutOperation`, `UpdateOperation`, `RemoveOperation`, `CreateBucketOperation`,
`DeleteBucketOperation`, `SplitBucketOperation`, `JoinBucketsOperation`). -/
inductive FeedOperation where
  | put (bucketId : BucketId) (timestamp : Nat) (doc : Document)
  | update (bucketId : BucketId) (timestamp : Nat) (upd : DocumentUpdate)
  | remove (bucketId : BucketId) (timestamp : Nat) (docId : DocumentId)
  | createBucket (bucketId : BucketId)
  | deleteBucket (bucketId : BucketId)
  | splitBucket (source target1 target2 : BucketId)
  | joinBuckets (source1 source2 target : BucketId)
deriving DecidableEq, Repr

/-- Calls the proxy makes on its bucket handler collaborator. -/
inductive BucketHandlerCall where
  | listBuckets
  | setCurrentState (bucketId : BucketId) (newState : Bool)
  | getBucketInfo (bucket : Bucket)
  | listActiveBuckets
deriving DecidableEq, Repr

/-- Calls the proxy makes on its cluster-state handler collaborator. -/
inductive ClusterStateHandlerCall where
  | setClusterState
  | getModifiedBuckets
deriving DecidableEq, Repr

/-- Calls the proxy makes on its owning document database. -/
inductive DocumentDBCall where
  | lockBucket (bucketId : BucketId)
  | commitAndWait
  | waitForOnlineState
deriving DecidableEq, Repr

/-- One collaborator invocation performed by a proxy method; a method's
behaviour is embedded as the exact list of such invocations it performs. -/
inductive ProxyCall where
  | feedOp (token : FeedToken) (op : FeedOperation)
  | bucketHandler (call : BucketHandlerCall)
  | clusterStateHandler (call : ClusterStateHandlerCall)
  | documentDB (call : DocumentDBCall)
deriving DecidableEq, Repr

/-- `PersistenceHandlerProxy::handlePut`: builds a `PutOperation` from the
stripped bucket id, timestamp and document, and hands it with the token to
the feed handler. -/
def PersistenceHandlerProxy.handlePut (token : FeedToken) (bucket : Bucket)
    (timestamp : Nat) (doc : Document) : List ProxyCall :=
  [ProxyCall.feedOp token (FeedOperation.put bucket.bucketId.stripUnused timestamp doc)]

/-- `PersistenceHandlerProxy::handleUpdate`. -/
def PersistenceHandlerProxy.handleUpdate (token : FeedToken) (bucket : Bucket)
    (timestamp : Nat) (upd : DocumentUpdate) : List ProxyCall :=
  [ProxyCall.feedOp token (FeedOperation.update bucket.bucketId.stripUnused timestamp upd)]

/-- `PersistenceHandlerProxy::handleRemove`. -/
def PersistenceHandlerProxy.handleRemove (token : FeedToken) (bucket : Bucket)
    (timestamp : Nat) (docId : DocumentId) : List ProxyCall :=
  [ProxyCall.feedOp token (FeedOperation.remove bucket.bucketId.stripUnused timestamp docId)]

/-- `PersistenceHandlerProxy::handleCreateBucket`. -/
def PersistenceHandlerProxy.handleCreateBucket (token : FeedToken)
    (bucket : Bucket) : List ProxyCall :=
  [ProxyCall.feedOp token (FeedOperation.createBucket bucket.bucketId.stripUnused)]

/-- `PersistenceHandlerProxy::handleDeleteBucket`. -/
def PersistenceHandlerProxy.handleDeleteBucket (token : FeedToken)
    (bucket : Bucket) : List ProxyCall :=
  [ProxyCall.feedOp token (FeedOperation.deleteBucket bucket.bucketId.stripUnused)]

/-- `PersistenceHandlerProxy::handleSplit`. -/
def PersistenceHandlerProxy.handleSplit (token : FeedToken)
    (source target1 target2 : Bucket) : List ProxyCall :=
  [ProxyCall.feedOp token (FeedOperation.splitBucket source.bucketId.stripUnused
      target1.bucketId.stripUnused target2.bucketId.stripUnused)]

/-- `PersistenceHandlerProxy::handleJoin`. -/
def PersistenceHandlerProxy.handleJoin (token : FeedToken)
    (source1 source2 target : Bucket) : List ProxyCall :=
  [ProxyCall.feedOp token (FeedOperation.joinBuckets source1.bucketId.stripUnused
      source2.bucketId.stripUnused target.bucketId.stripUnused)]

/-- `PersistenceHandlerProxy::handleListBuckets`: direct delegation. -/
def PersistenceHandlerProxy.handleListBuckets : List ProxyCall :=
  [ProxyCall.bucketHandler BucketHandlerCall.listBuckets]

/-- `PersistenceHandlerProxy::handleSetClusterState`: direct delegation. -/
def PersistenceHandlerProxy.handleSetClusterState : List ProxyCall :=
  [ProxyCall.clusterStateHandler ClusterStateHandlerCall.setClusterState]

/-- `PersistenceHandlerProxy::handleSetActiveState`: strips the bucket id and
delegates to the bucket handler's `handleSetCurrentState`. -/
def PersistenceHandlerProxy.handleSetActiveState (bucket : Bucket)
    (newState : Bool) : List ProxyCall :=
  [ProxyCall.bucketHandler
      (BucketHandlerCall.setCurrentState bucket.bucketId.stripUnused newState)]

/-- `PersistenceHandlerProxy::handleGetBucketInfo`: delegates to the bucket
handler, passing the provider bucket through unmodified. -/
def PersistenceHandlerProxy.handleGetBucketInfo (bucket : Bucket) : List ProxyCall :=
  [ProxyCall.bucketHandler (BucketHandlerCall.getBucketInfo bucket)]

/-- `PersistenceHandlerProxy::handleGetModifiedBuckets`: direct delegation. -/
def PersistenceHandlerProxy.handleGetModifiedBuckets : List ProxyCall :=
  [ProxyCall.clusterStateHandler ClusterStateHandlerCall.getModifiedBuckets]

/-- `PersistenceHandlerProxy::lockBucket`: strips the bucket id and asks the
owning database for the bucket guard. -/
def PersistenceHandlerProxy.lockBucket (bucket : Bucket) : List ProxyCall :=
  [ProxyCall.documentDB (DocumentDBCall.lockBucket bucket.bucketId.stripUnused)]

/-- `PersistenceHandlerProxy::handleListActiveBuckets`: direct delegation. -/
def PersistenceHandlerProxy.handleListActiveBuckets : List ProxyCall :=
  [ProxyCall.bucketHandler BucketHandlerCall.listActiveBuckets]

/-- Bucket ids a feed operation carries. -/
def FeedOperation.bucketIds : FeedOperation → List BucketId
  | .put bucketId _ _ => [bucketId]
  | .update bucketId _ _ => [bucketId]
  | .remove bucketId _ _ => [bucketId]
  | .createBucket bucketId => [bucketId]
  | .deleteBucket bucketId => [bucketId]
  | .splitBucket source target1 target2 => [source, target1, target2]
  | .joinBuckets source1 source2 target => [source1, source2, target]

/-- Bucket ids a collaborator invocation passes to the collaborator. -/
def ProxyCall.bucketIds : ProxyCall → List BucketId
  | .feedOp _ op => op.bucketIds
  | .bucketHandler (.setCurrentState bucketId _) => [bucketId]
  | .bucketHandler (.getBucketInfo bucket) => [bucket.bucketId]
  | .documentDB (.lockBucket bucketId) => [bucketId]
  | _ => []

/-- All bucket ids passed to collaborators across a list of invocations. -/
def bucketIdsPassed (calls : List ProxyCall) : List BucketId :=
  calls.foldr (fun c acc => c.bucketIds ++ acc) []

/-- Modelled from the spec: `FeedHandler::handleOperation` is not under src/
(only its caller, the proxy, is). The spec says the feed handler delivers
"exactly one completion (success or failure) ... always asynchronously, never
synchronously from the submitting call" per submitted operation, and that
feed submission failures "surface only through the completion token's result".
The completions eventually delivered are therefore one per submitted
operation, on that operation's token. -/
def feedHandlerCompletions (calls : List ProxyCall) : List FeedToken :=
  calls.foldr
    (fun c acc =>
      match c with
      | ProxyCall.feedOp token _ => token :: acc
      | _ => acc) []

theorem BucketId.stripUnused_idempotent (b : BucketId) :
    b.stripUnused.stripUnused = b.stripUnused := by
  simp [BucketId.stripUnused, Nat.mod_mod_of_dvd _ dvd_rfl]

theorem BucketId.isNormalized_stripUnused (b : BucketId) :
    b.stripUnused.isNormalized = true := by
  simp [BucketId.isNormalized, BucketId.stripUnused_idempotent]

/-- One sub-database held by the maintenance controller
(`MaintenanceDocumentSubDB`); only its sub-db id is consumed here. -/
structure MaintenanceDocumentSubDB where
  sub_db_id : Nat
deriving DecidableEq, Repr

/-- `LidSpaceCompactionHandler(subDb, docTypeName)`: the per-sub-database
handler a lid-space-compaction job is bound to. -/
structure LidSpaceCompactionHandler where
  subDb : MaintenanceDocumentSubDB
  docTypeName : String
deriving DecidableEq, Repr

/-- Lid-space-compaction configuration: disabled flag and strategy flag. -/
structure LidSpaceCompactionConfig where
  isDisabled : Bool
  useBucketExecutor : Bool
deriving DecidableEq, Repr

/-- Bucket-move configuration: strategy flag. -/
structure BucketMoveConfig where
  useBucketExecutor : Bool
deriving DecidableEq, Repr

/-- The slice of `DocumentDBMaintenanceConfig` the injector consumes. -/
structure DocumentDBMaintenanceConfig where
  heartBeatConfig : Nat
  sessionCachePruneInterval : Nat
  pruneRemovedDocumentsConfig : Nat
  lidSpaceCompactionConfig : LidSpaceCompactionConfig
  bucketMoveConfig : BucketMoveConfig
  attributeUsageSampleInterval : Nat
deriving DecidableEq, Repr

/-- `IBucketStateCalculator`: only `nodeRetired()` is consumed here; the
injector receives it through a possibly-null shared pointer, embedded as
`Option IBucketStateCalculator`. -/
structure IBucketStateCalculator where
  nodeRetired : Bool
deriving DecidableEq, Repr

/-- `DocumentDBJobTrackers`: the per-category tracker handles the injector
hands to the tracking decorator, identified by tracker id. -/
structure DocumentDBJobTrackers where
  removedDocumentsPrune : Nat
  lidSpaceCompact : Nat
  bucketMove : Nat
deriving DecidableEq, Repr

/-- Concrete maintenance job objects the injector constructs, tagged by their
class, carrying the constructor arguments relevant to the claims; `jobTracked`
is the `JobTrackedMaintenanceJob` decorator. The bucket-executor strategies
`lidspace::CompactionJob` (from lid_space_compaction_job_take2.h) and
`BucketMoveJobV2` are the `...BE` / `...V2` constructors. -/
inductive IMaintenanceJob where
  | heartBeat (cfg : Nat)
  | pruneSessionCache (interval : Nat)
  | pruneRemovedDocuments (cfg : Nat) (subDbId : Nat) (docTypeName : String)
  | lidSpaceCompactionJob (cfg : LidSpaceCompactionConfig)
      (handler : LidSpaceCompactionHandler) (nodeRetired : Bool)
  | lidSpaceCompactionJobBE (cfg : LidSpaceCompactionConfig)
      (handler : LidSpaceCompactionHandler) (nodeRetired : Bool)
  | bucketMoveJob (bsCalc : Option IBucketStateCalculator)
      (ready notReady : MaintenanceDocumentSubDB) (docTypeName : String)
  | bucketMoveJobV2 (bsCalc : Option IBucketStateCalculator)
      (ready notReady : MaintenanceDocumentSubDB) (docTypeName : String)
  | sampleAttributeUsage (docTypeName : String) (interval : Nat)
  | jobTracked (tracker : Nat) (job : IMaintenanceJob)
deriving DecidableEq, Repr

/-- The maintenance controller as the injector sees it: the three bound
sub-databases and the job registries of its two execution contexts. -/
structure MaintenanceController where
  readySubDB : MaintenanceDocumentSubDB
  remSubDB : MaintenanceDocumentSubDB
  notReadySubDB : MaintenanceDocumentSubDB
  masterJobs : List IMaintenanceJob
  poolJobs : List IMaintenanceJob
deriving DecidableEq, Repr

/-- `MaintenanceController::registerJobInMasterThread`. -/
def MaintenanceController.registerJobInMasterThread
    (c : MaintenanceController) (job : IMaintenanceJob) : MaintenanceController :=
  { c with masterJobs := c.masterJobs ++ [job] }

/-- `MaintenanceController::registerJobInDefaultPool`. -/
def MaintenanceController.registerJobInDefaultPool
    (c : MaintenanceController) (job : IMaintenanceJob) : MaintenanceController :=
  { c with poolJobs := c.poolJobs ++ [job] }

/-- `trackJob`: wraps a job in the `JobTrackedMaintenanceJob` decorator. -/
def trackJob (tracker : Nat) (job : IMaintenanceJob) : IMaintenanceJob :=
  IMaintenanceJob.jobTracked tracker job

/-- `injectLidSpaceCompactionJobs`: for each handler, pick the strategy by the
lid-space-compaction bucket-executor flag, compute node-retired as
`calc ? calc->nodeRetired() : false`, wrap with the shared tracker and
register in the master thread. -/
def injectLidSpaceCompactionJobs (controller : MaintenanceController)
    (config : DocumentDBMaintenanceConfig)
    (lscHandlers : List LidSpaceCompactionHandler)
    (tracker : Nat)
    (bsCalc : Option IBucketStateCalculator) : MaintenanceController :=
  lscHandlers.foldl
    (fun c lidHandler =>
      let job :=
        if config.lidSpaceCompactionConfig.useBucketExecutor then
          IMaintenanceJob.lidSpaceCompactionJobBE config.lidSpaceCompactionConfig
            lidHandler (match bsCalc with | some cc => cc.nodeRetired | none => false)
        else
          IMaintenanceJob.lidSpaceCompactionJob config.lidSpaceCompactionConfig
            lidHandler (match bsCalc with | some cc => cc.nodeRetired | none => false)
      c.registerJobInMasterThread (trackJob tracker job))
    controller

/-- `injectBucketMoveJob`: pick the strategy by the bucket-move
bucket-executor flag, wrap with the bucket-move tracker and register in the
master thread. -/
def injectBucketMoveJob (controller : MaintenanceController)
    (config : DocumentDBMaintenanceConfig)
    (docTypeName : String)
    (bsCalc : Option IBucketStateCalculator)
    (jobTrackers : DocumentDBJobTrackers) : MaintenanceController :=
  let bmj :=
    if config.bucketMoveConfig.useBucketExecutor then
      IMaintenanceJob.bucketMoveJobV2 bsCalc controller.readySubDB
        controller.notReadySubDB docTypeName
    else
      IMaintenanceJob.bucketMoveJob bsCalc controller.readySubDB
        controller.notReadySubDB docTypeName
  controller.registerJobInMasterThread (trackJob jobTrackers.bucketMove bmj)

/-- `MaintenanceJobsInjector::injectJobs`: registers the heartbeat job in the
master thread and the session-cache-prune job in the default pool; registers
the tracked removed-documents-prune job; when lid-space compaction is not
disabled, builds one handler per sub-database (ready, removed, not-ready) and
injects the lid-space-compaction jobs; injects the bucket-move job; and
registers the attribute-usage-sampling job. -/
def MaintenanceJobsInjector.injectJobs (controller : MaintenanceController)
    (config : DocumentDBMaintenanceConfig)
    (docTypeName : String)
    (bsCalc : Option IBucketStateCalculator)
    (jobTrackers : DocumentDBJobTrackers) : MaintenanceController :=
  let c1 := controller.registerJobInMasterThread
    (IMaintenanceJob.heartBeat config.heartBeatConfig)
  let c2 := c1.registerJobInDefaultPool
    (IMaintenanceJob.pruneSessionCache config.sessionCachePruneInterval)
  let mRemSubDB := c2.remSubDB
  let pruneRDjob := IMaintenanceJob.pruneRemovedDocuments
    config.pruneRemovedDocumentsConfig mRemSubDB.sub_db_id docTypeName
  let c3 := c2.registerJobInMasterThread
    (trackJob jobTrackers.removedDocumentsPrune pruneRDjob)
  let c4 :=
    if !config.lidSpaceCompactionConfig.isDisabled then
      let lidSpaceCompactionHandlers : List LidSpaceCompactionHandler :=
        [⟨c3.readySubDB, docTypeName⟩, ⟨c3.remSubDB, docTypeName⟩,
         ⟨c3.notReadySubDB, docTypeName⟩]
      injectLidSpaceCompactionJobs c3 config lidSpaceCompactionHandlers
        jobTrackers.lidSpaceCompact bsCalc
    else c3
  let c5 := injectBucketMoveJob c4 config docTypeName bsCalc jobTrackers
  c5.registerJobInMasterThread
    (IMaintenanceJob.sampleAttributeUsage docTypeName config.attributeUsageSampleInterval)

/-- Look through the tracking decorator to the underlying job. -/
def IMaintenanceJob.unwrap : IMaintenanceJob → IMaintenanceJob
  | .jobTracked _ job => job
  | job => job

/-- The tracker id of a tracked job, if any. -/
def IMaintenanceJob.trackerOf : IMaintenanceJob → Option Nat
  | .jobTracked tracker _ => some tracker
  | _ => none

/-- Whether a job is wrapped in the tracking decorator. -/
def IMaintenanceJob.isTracked : IMaintenanceJob → Bool
  | .jobTracked _ _ => true
  | _ => false

/-- A lid-space-compaction job of either strategy (looking through tracking). -/
def IMaintenanceJob.isLidSpaceCompaction (j : IMaintenanceJob) : Bool :=
  match j.unwrap with
  | .lidSpaceCompactionJob _ _ _ => true
  | .lidSpaceCompactionJobBE _ _ _ => true
  | _ => false

/-- A bucket-move job of either strategy (looking through tracking). -/
def IMaintenanceJob.isBucketMove (j : IMaintenanceJob) : Bool :=
  match j.unwrap with
  | .bucketMoveJob _ _ _ _ => true
  | .bucketMoveJobV2 _ _ _ _ => true
  | _ => false

/-- A heartbeat job (looking through tracking). -/
def IMaintenanceJob.isHeartBeat (j : IMaintenanceJob) : Bool :=
  match j.unwrap with
  | .heartBeat _ => true
  | _ => false

/-- A session-cache-prune job (looking through tracking). -/
def IMaintenanceJob.isPruneSessionCache (j : IMaintenanceJob) : Bool :=
  match j.unwrap with
  | .pruneSessionCache _ => true
  | _ => false

/-- A removed-documents-prune job (looking through tracking). -/
def IMaintenanceJob.isPruneRemovedDocuments (j : IMaintenanceJob) : Bool :=
  match j.unwrap with
  | .pruneRemovedDocuments _ _ _ => true
  | _ => false

/-- An attribute-usage-sampling job (looking through tracking). -/
def IMaintenanceJob.isSampleAttributeUsage (j : IMaintenanceJob) : Bool :=
  match j.unwrap with
  | .sampleAttributeUsage _ _ => true
  | _ => false

/-- For a strategy-split family member: whether the bucket-executor strategy
was chosen (`some true` for `...BE`/`...V2`, `some false` for legacy). -/
def IMaintenanceJob.bucketExecutorStrategy (j : IMaintenanceJob) : Option Bool :=
  match j.unwrap with
  | .lidSpaceCompactionJob _ _ _ => some false
  | .lidSpaceCompactionJobBE _ _ _ => some true
  | .bucketMoveJob _ _ _ _ => some false
  | .bucketMoveJobV2 _ _ _ _ => some true
  | _ => none

/-- The sub-database a lid-space-compaction job's handler is bound to. -/
def IMaintenanceJob.lscSubDb (j : IMaintenanceJob) : Option MaintenanceDocumentSubDB :=
  match j.unwrap with
  | .lidSpaceCompactionJob _ handler _ => some handler.subDb
  | .lidSpaceCompactionJobBE _ handler _ => some handler.subDb
  | _ => none

/-- The node-retired flag a lid-space-compaction job was constructed with. -/
def IMaintenanceJob.lscNodeRetired (j : IMaintenanceJob) : Option Bool :=
  match j.unwrap with
  | .lidSpaceCompactionJob _ _ nodeRetired => some nodeRetired
  | .lidSpaceCompactionJobBE _ _ nodeRetired => some nodeRetired
  | _ => none

/-- C1: every write-path proxy operation normalizes its bucket id arguments,
builds the tagged feed operation carrying them with the given
timestamp/payload, and submits exactly that operation with the caller's token
to the feed handler, performing no other collaborator call. -/
theorem PersistenceHandlerProxy.writePath_submits_single_tagged_normalized_operation
    (token : FeedToken) (bucket source target1 target2 source1 source2 target : Bucket)
    (timestamp : Nat) (doc : Document) (upd : DocumentUpdate) (docId : DocumentId) :
    (PersistenceHandlerProxy.handlePut token bucket timestamp doc =
        [ProxyCall.feedOp token
          (FeedOperation.put bucket.bucketId.stripUnused timestamp doc)]
      ∧ (bucketIdsPassed
          (PersistenceHandlerProxy.handlePut token bucket timestamp doc)).all
          BucketId.isNormalized = true)
    ∧ (PersistenceHandlerProxy.handleUpdate token bucket timestamp upd =
        [ProxyCall.feedOp token
          (FeedOperation.update bucket.bucketId.stripUnused timestamp upd)]
      ∧ (bucketIdsPassed
          (PersistenceHandlerProxy.handleUpdate token bucket timestamp upd)).all
          BucketId.isNormalized = true)
    ∧ (PersistenceHandlerProxy.handleRemove token bucket timestamp docId =
        [ProxyCall.feedOp token
          (FeedOperation.remove bucket.bucketId.stripUnused timestamp docId)]
      ∧ (bucketIdsPassed
          (PersistenceHandlerProxy.handleRemove token bucket timestamp docId)).all
          BucketId.isNormalized = true)
    ∧ (PersistenceHandlerProxy.handleCreateBucket token bucket =
        [ProxyCall.feedOp token
          (FeedOperation.createBucket bucket.bucketId.stripUnused)]
      ∧ (bucketIdsPassed
          (PersistenceHandlerProxy.handleCreateBucket token bucket)).all
          BucketId.isNormalized = true)
    ∧ (PersistenceHandlerProxy.handleDeleteBucket token bucket =
        [ProxyCall.feedOp token
          (FeedOperation.deleteBucket bucket.bucketId.stripUnused)]
      ∧ (bucketIdsPassed
          (PersistenceHandlerProxy.handleDeleteBucket token bucket)).all
          BucketId.isNormalized = true)
    ∧ (PersistenceHandlerProxy.handleSplit token source target1 target2 =
        [ProxyCall.feedOp token
          (FeedOperation.splitBucket source.bucketId.stripUnused
            target1.bucketId.stripUnused target2.bucketId.stripUnused)]
      ∧ (bucketIdsPassed
          (PersistenceHandlerProxy.handleSplit token source target1 target2)).all
          BucketId.isNormalized = true)
    ∧ (PersistenceHandlerProxy.handleJoin token source1 source2 target =
        [ProxyCall.feedOp token
          (FeedOperation.joinBuckets source1.bucketId.stripUnused
            source2.bucketId.stripUnused target.bucketId.stripUnused)]
      ∧ (bucketIdsPassed
          (PersistenceHandlerProxy.handleJoin token source1 source2 target)).all
          BucketId.isNormalized = true) := by
  refine ⟨⟨rfl, ?_⟩, ⟨rfl, ?_⟩, ⟨rfl, ?_⟩, ⟨rfl, ?_⟩, ⟨rfl, ?_⟩, ⟨rfl, ?_⟩, ⟨rfl, ?_⟩⟩ <;>
    simp [PersistenceHandlerProxy.handlePut, PersistenceHandlerProxy.handleUpdate,
      PersistenceHandlerProxy.handleRemove, PersistenceHandlerProxy.handleCreateBucket,
      PersistenceHandlerProxy.handleDeleteBucket, PersistenceHandlerProxy.handleSplit,
      PersistenceHandlerProxy.handleJoin, bucketIdsPassed, ProxyCall.bucketIds,
      FeedOperation.bucketIds, BucketId.isNormalized_stripUnused]

/-- C2 counterexample: `handleGetBucketInfo` passes the provider bucket with a
non-normalized bucket id straight to the bucket handler, so not every
proxy operation normalizes its bucket id before internal use. -/
theorem PersistenceHandlerProxy.handleGetBucketInfo_passes_raw_bucket :
    bucketIdsPassed (PersistenceHandlerProxy.handleGetBucketInfo ⟨⟨1, 3⟩⟩) =
      [⟨1, 3⟩]
    ∧ BucketId.isNormalized ⟨1, 3⟩ = false := by
  decide

/-- C2 (amended): every proxy operation that receives a bucket, except
`handleGetBucketInfo`, passes only normalized bucket ids to internal
collaborators — in particular `handleSetActiveState`, `lockBucket` and all
write-path operations; `handleGetBucketInfo` forwards the provider bucket to
the bucket handler unmodified. -/
theorem PersistenceHandlerProxy.bucket_ids_normalized_except_getBucketInfo
    (token : FeedToken) (bucket source target1 target2 source1 source2 target : Bucket)
    (newState : Bool) (timestamp : Nat) (doc : Document) (upd : DocumentUpdate)
    (docId : DocumentId) :
    (bucketIdsPassed
        (PersistenceHandlerProxy.handleSetActiveState bucket newState)).all
        BucketId.isNormalized = true
    ∧ (bucketIdsPassed (PersistenceHandlerProxy.lockBucket bucket)).all
        BucketId.isNormalized = true
    ∧ (bucketIdsPassed
        (PersistenceHandlerProxy.handlePut token bucket timestamp doc)).all
        BucketId.isNormalized = true
    ∧ (bucketIdsPassed
        (PersistenceHandlerProxy.handleUpdate token bucket timestamp upd)).all
        BucketId.isNormalized = true
    ∧ (bucketIdsPassed
        (PersistenceHandlerProxy.handleRemove token bucket timestamp docId)).all
        BucketId.isNormalized = true
    ∧ (bucketIdsPassed
        (PersistenceHandlerProxy.handleCreateBucket token bucket)).all
        BucketId.isNormalized = true
    ∧ (bucketIdsPassed
        (PersistenceHandlerProxy.handleDeleteBucket token bucket)).all
        BucketId.isNormalized = true
    ∧ (bucketIdsPassed
        (PersistenceHandlerProxy.handleSplit token source target1 target2)).all
        BucketId.isNormalized = true
    ∧ (bucketIdsPassed
        (PersistenceHandlerProxy.handleJoin token source1 source2 target)).all
        BucketId.isNormalized = true
    ∧ PersistenceHandlerProxy.handleGetBucketInfo bucket =
        [ProxyCall.bucketHandler (BucketHandlerCall.getBucketInfo bucket)] := by
  refine ⟨?_, ?_, ?_, ?_, ?_, ?_, ?_, ?_, ?_, rfl⟩ <;>
    simp [PersistenceHandlerProxy.handleSetActiveState,
      PersistenceHandlerProxy.lockBucket, PersistenceHandlerProxy.handlePut,
      PersistenceHandlerProxy.handleUpdate, PersistenceHandlerProxy.handleRemove,
      PersistenceHandlerProxy.handleCreateBucket,
      PersistenceHandlerProxy.handleDeleteBucket, PersistenceHandlerProxy.handleSplit,
      PersistenceHandlerProxy.handleJoin, bucketIdsPassed, ProxyCall.bucketIds,
      FeedOperation.bucketIds, BucketId.isNormalized_stripUnused]

/-- C7: every write-path proxy operation submits its operation with the
caller's token, and the feed handler (modelled from the spec) delivers exactly
one completion on that token — never zero, never two; the submitting call
itself consists of that single submission only, so no outcome is reported
synchronously. -/
theorem PersistenceHandlerProxy.writePath_exactly_one_completion
    (token : FeedToken) (bucket source target1 target2 source1 source2 target : Bucket)
    (timestamp : Nat) (doc : Document) (upd : DocumentUpdate) (docId : DocumentId) :
    feedHandlerCompletions
        (PersistenceHandlerProxy.handlePut token bucket timestamp doc) = [token]
    ∧ feedHandlerCompletions
        (PersistenceHandlerProxy.handleUpdate token bucket timestamp upd) = [token]
    ∧ feedHandlerCompletions
        (PersistenceHandlerProxy.handleRemove token bucket timestamp docId) = [token]
    ∧ feedHandlerCompletions
        (PersistenceHandlerProxy.handleCreateBucket token bucket) = [token]
    ∧ feedHandlerCompletions
        (PersistenceHandlerProxy.handleDeleteBucket token bucket) = [token]
    ∧ feedHandlerCompletions
        (PersistenceHandlerProxy.handleSplit token source target1 target2) = [token]
    ∧ feedHandlerCompletions
        (PersistenceHandlerProxy.handleJoin token source1 source2 target) = [token] := by
  exact ⟨rfl, rfl, rfl, rfl, rfl, rfl, rfl⟩

/-- C3 counterexample: at a concrete configuration, the heartbeat job sits in
the master registry without the tracking decorator, so not every
always-created job is wrapped in `JobTrackedMaintenanceJob`. -/
theorem MaintenanceJobsInjector.heartBeat_registered_untracked :
    (MaintenanceJobsInjector.injectJobs ⟨⟨0⟩, ⟨1⟩, ⟨2⟩, [], []⟩
        ⟨1, 2, 3, ⟨false, false⟩, ⟨false⟩, 4⟩ "doc" none ⟨10, 11, 12⟩).masterJobs.head? =
      some (IMaintenanceJob.heartBeat 1)
    ∧ IMaintenanceJob.isTracked (IMaintenanceJob.heartBeat 1) = false := by
  exact ⟨rfl, rfl⟩

/-- C3 (amended): for every configuration, `injectJobs` creates the heartbeat,
session-cache-pruning, removed-document-pruning and attribute-usage-sampling
jobs; the removed-document-pruning job is wrapped in the tracking decorator
before registration, while the heartbeat, session-cache-pruning and
attribute-usage-sampling jobs are registered without it. -/
theorem MaintenanceJobsInjector.always_created_jobs_and_tracking
    (r rem nr : MaintenanceDocumentSubDB) (config : DocumentDBMaintenanceConfig)
    (docTypeName : String) (bsCalc : Option IBucketStateCalculator)
    (jobTrackers : DocumentDBJobTrackers) :
    ((MaintenanceJobsInjector.injectJobs ⟨r, rem, nr, [], []⟩ config docTypeName
        bsCalc jobTrackers).masterJobs.countP
        (fun j => j.isHeartBeat && !j.isTracked)) = 1
    ∧ ((MaintenanceJobsInjector.injectJobs ⟨r, rem, nr, [], []⟩ config docTypeName
        bsCalc jobTrackers).poolJobs.countP
        (fun j => j.isPruneSessionCache && !j.isTracked)) = 1
    ∧ ((MaintenanceJobsInjector.injectJobs ⟨r, rem, nr, [], []⟩ config docTypeName
        bsCalc jobTrackers).masterJobs.countP
        (fun j => j.isPruneRemovedDocuments && j.isTracked)) = 1
    ∧ ((MaintenanceJobsInjector.injectJobs ⟨r, rem, nr, [], []⟩ config docTypeName
        bsCalc jobTrackers).masterJobs.countP
        (fun j => j.isSampleAttributeUsage && !j.isTracked)) = 1 := by
  obtain ⟨hb, sc, prd, ⟨lscDis, lscBE⟩, ⟨bmBE⟩, attr⟩ := config
  cases lscDis <;> cases lscBE <;> cases bmBE <;>
    simp [MaintenanceJobsInjector.injectJobs, injectLidSpaceCompactionJobs,
      injectBucketMoveJob, MaintenanceController.registerJobInMasterThread,
      MaintenanceController.registerJobInDefaultPool, trackJob,
      List.countP_append, List.countP_cons, IMaintenanceJob.isHeartBeat,
      IMaintenanceJob.isPruneSessionCache, IMaintenanceJob.isPruneRemovedDocuments,
      IMaintenanceJob.isSampleAttributeUsage, IMaintenanceJob.isTracked,
      IMaintenanceJob.unwrap]

/-- C4: with lid-space compaction disabled, a single `injectJobs` call
registers zero lid-space-compaction jobs anywhere while still registering
exactly one bucket-move job (in the master thread, none in the pool). -/
theorem MaintenanceJobsInjector.lsc_disabled_zero_lsc_one_bucketMove
    (r rem nr : MaintenanceDocumentSubDB) (config : DocumentDBMaintenanceConfig)
    (docTypeName : String) (bsCalc : Option IBucketStateCalculator)
    (jobTrackers : DocumentDBJobTrackers)
    (h : config.lidSpaceCompactionConfig.isDisabled = true) :
    ((MaintenanceJobsInjector.injectJobs ⟨r, rem, nr, [], []⟩ config docTypeName
        bsCalc jobTrackers).masterJobs.countP IMaintenanceJob.isLidSpaceCompaction) = 0
    ∧ ((MaintenanceJobsInjector.injectJobs ⟨r, rem, nr, [], []⟩ config docTypeName
        bsCalc jobTrackers).poolJobs.countP IMaintenanceJob.isLidSpaceCompaction) = 0
    ∧ ((MaintenanceJobsInjector.injectJobs ⟨r, rem, nr, [], []⟩ config docTypeName
        bsCalc jobTrackers).masterJobs.countP IMaintenanceJob.isBucketMove) = 1
    ∧ ((MaintenanceJobsInjector.injectJobs ⟨r, rem, nr, [], []⟩ config docTypeName
        bsCalc jobTrackers).poolJobs.countP IMaintenanceJob.isBucketMove) = 0 := by
  obtain ⟨hb, sc, prd, ⟨lscDis, lscBE⟩, ⟨bmBE⟩, attr⟩ := config
  cases lscDis with
  | false => simp at h
  | true =>
    cases lscBE <;> cases bmBE <;>
      simp [MaintenanceJobsInjector.injectJobs, injectLidSpaceCompactionJobs,
        injectBucketMoveJob, MaintenanceController.registerJobInMasterThread,
        MaintenanceController.registerJobInDefaultPool, trackJob,
        List.countP_append, List.countP_cons, IMaintenanceJob.isLidSpaceCompaction,
        IMaintenanceJob.isBucketMove, IMaintenanceJob.unwrap]

/-- C4 witness: a concrete disabled configuration satisfying the theorem. -/
theorem MaintenanceJobsInjector.lsc_disabled_zero_lsc_one_bucketMove_witness :
    ((MaintenanceJobsInjector.injectJobs ⟨⟨0⟩, ⟨1⟩, ⟨2⟩, [], []⟩
        ⟨1, 2, 3, ⟨true, false⟩, ⟨false⟩, 4⟩ "doc" none
        ⟨10, 11, 12⟩).masterJobs.countP IMaintenanceJob.isLidSpaceCompaction) = 0
    ∧ ((MaintenanceJobsInjector.injectJobs ⟨⟨0⟩, ⟨1⟩, ⟨2⟩, [], []⟩
        ⟨1, 2, 3, ⟨true, false⟩, ⟨false⟩, 4⟩ "doc" none
        ⟨10, 11, 12⟩).poolJobs.countP IMaintenanceJob.isLidSpaceCompaction) = 0
    ∧ ((MaintenanceJobsInjector.injectJobs ⟨⟨0⟩, ⟨1⟩, ⟨2⟩, [], []⟩
        ⟨1, 2, 3, ⟨true, false⟩, ⟨false⟩, 4⟩ "doc" none
        ⟨10, 11, 12⟩).masterJobs.countP IMaintenanceJob.isBucketMove) = 1
    ∧ ((MaintenanceJobsInjector.injectJobs ⟨⟨0⟩, ⟨1⟩, ⟨2⟩, [], []⟩
        ⟨1, 2, 3, ⟨true, false⟩, ⟨false⟩, 4⟩ "doc" none
        ⟨10, 11, 12⟩).poolJobs.countP IMaintenanceJob.isBucketMove) = 0 :=
  MaintenanceJobsInjector.lsc_disabled_zero_lsc_one_bucketMove
    ⟨0⟩ ⟨1⟩ ⟨2⟩ ⟨1, 2, 3, ⟨true, false⟩, ⟨false⟩, 4⟩ "doc" none ⟨10, 11, 12⟩ rfl

/-- C5: with lid-space compaction enabled, `injectJobs` creates exactly three
lid-space-compaction jobs, one per bound sub-database in order ready, removed,
not-ready, all sharing the lid-space-compaction tracker, and all registered in
the master thread (none in the default pool). -/
theorem MaintenanceJobsInjector.lsc_enabled_three_jobs_shared_tracker
    (r rem nr : MaintenanceDocumentSubDB) (config : DocumentDBMaintenanceConfig)
    (docTypeName : String) (bsCalc : Option IBucketStateCalculator)
    (jobTrackers : DocumentDBJobTrackers)
    (h : config.lidSpaceCompactionConfig.isDisabled = false) :
    ((MaintenanceJobsInjector.injectJobs ⟨r, rem, nr, [], []⟩ config docTypeName
        bsCalc jobTrackers).masterJobs.filter
        IMaintenanceJob.isLidSpaceCompaction).length = 3
    ∧ ((MaintenanceJobsInjector.injectJobs ⟨r, rem, nr, [], []⟩ config docTypeName
        bsCalc jobTrackers).masterJobs.filter
        IMaintenanceJob.isLidSpaceCompaction).map IMaintenanceJob.lscSubDb =
        [some r, some rem, some nr]
    ∧ ((MaintenanceJobsInjector.injectJobs ⟨r, rem, nr, [], []⟩ config docTypeName
        bsCalc jobTrackers).masterJobs.filter
        IMaintenanceJob.isLidSpaceCompaction).all
        (fun j => j.trackerOf == some jobTrackers.lidSpaceCompact) = true
    ∧ ((MaintenanceJobsInjector.injectJobs ⟨r, rem, nr, [], []⟩ config docTypeName
        bsCalc jobTrackers).poolJobs.countP IMaintenanceJob.isLidSpaceCompaction) = 0 := by
  obtain ⟨hb, sc, prd, ⟨lscDis, lscBE⟩, ⟨bmBE⟩, attr⟩ := config
  cases lscDis with
  | true => simp at h
  | false =>
    cases lscBE <;> cases bmBE <;>
      simp [MaintenanceJobsInjector.injectJobs, injectLidSpaceCompactionJobs,
        injectBucketMoveJob, MaintenanceController.registerJobInMasterThread,
        MaintenanceController.registerJobInDefaultPool, trackJob,
        List.countP_append, List.countP_cons, List.filter_append,
        IMaintenanceJob.isLidSpaceCompaction, IMaintenanceJob.isBucketMove,
        IMaintenanceJob.unwrap, IMaintenanceJob.lscSubDb, IMaintenanceJob.trackerOf]

/-- C5 witness: a concrete enabled configuration satisfying the theorem. -/
theorem MaintenanceJobsInjector.lsc_enabled_three_jobs_shared_tracker_witness :
    ((MaintenanceJobsInjector.injectJobs ⟨⟨0⟩, ⟨1⟩, ⟨2⟩, [], []⟩
        ⟨1, 2, 3, ⟨false, false⟩, ⟨false⟩, 4⟩ "doc" none
        ⟨10, 11, 12⟩).masterJobs.filter
        IMaintenanceJob.isLidSpaceCompaction).length = 3
    ∧ ((MaintenanceJobsInjector.injectJobs ⟨⟨0⟩, ⟨1⟩, ⟨2⟩, [], []⟩
        ⟨1, 2, 3, ⟨false, false⟩, ⟨false⟩, 4⟩ "doc" none
        ⟨10, 11, 12⟩).masterJobs.filter
        IMaintenanceJob.isLidSpaceCompaction).map IMaintenanceJob.lscSubDb =
        [some ⟨0⟩, some ⟨1⟩, some ⟨2⟩]
    ∧ ((MaintenanceJobsInjector.injectJobs ⟨⟨0⟩, ⟨1⟩, ⟨2⟩, [], []⟩
        ⟨1, 2, 3, ⟨false, false⟩, ⟨false⟩, 4⟩ "doc" none
        ⟨10, 11, 12⟩).masterJobs.filter
        IMaintenanceJob.isLidSpaceCompaction).all
        (fun j => j.trackerOf == some (⟨10, 11, 12⟩ : DocumentDBJobTrackers).lidSpaceCompact) = true
    ∧ ((MaintenanceJobsInjector.injectJobs ⟨⟨0⟩, ⟨1⟩, ⟨2⟩, [], []⟩
        ⟨1, 2, 3, ⟨false, false⟩, ⟨false⟩, 4⟩ "doc" none
        ⟨10, 11, 12⟩).poolJobs.countP IMaintenanceJob.isLidSpaceCompaction) = 0 :=
  MaintenanceJobsInjector.lsc_enabled_three_jobs_shared_tracker
    ⟨0⟩ ⟨1⟩ ⟨2⟩ ⟨1, 2, 3, ⟨false, false⟩, ⟨false⟩, 4⟩ "doc" none ⟨10, 11, 12⟩ rfl

/-- C6: for every configuration, the bucket-move family's strategy is the
bucket-executor one exactly when the bucket-move flag is set, and every
lid-space-compaction job's strategy is the bucket-executor one exactly when
the lid-space-compaction flag is set — each family governed by its own flag. -/
theorem MaintenanceJobsInjector.bucketExecutor_flag_selects_strategy
    (r rem nr : MaintenanceDocumentSubDB) (config : DocumentDBMaintenanceConfig)
    (docTypeName : String) (bsCalc : Option IBucketStateCalculator)
    (jobTrackers : DocumentDBJobTrackers) :
    ((MaintenanceJobsInjector.injectJobs ⟨r, rem, nr, [], []⟩ config docTypeName
        bsCalc jobTrackers).masterJobs.countP
        (fun j => j.isBucketMove &&
          (j.bucketExecutorStrategy == some config.bucketMoveConfig.useBucketExecutor))) = 1
    ∧ ((MaintenanceJobsInjector.injectJobs ⟨r, rem, nr, [], []⟩ config docTypeName
        bsCalc jobTrackers).masterJobs.countP IMaintenanceJob.isBucketMove) = 1
    ∧ ((MaintenanceJobsInjector.injectJobs ⟨r, rem, nr, [], []⟩ config docTypeName
        bsCalc jobTrackers).masterJobs.countP
        (fun j => j.isLidSpaceCompaction &&
          (j.bucketExecutorStrategy ==
            some config.lidSpaceCompactionConfig.useBucketExecutor))) =
        (if config.lidSpaceCompactionConfig.isDisabled then 0 else 3)
    ∧ ((MaintenanceJobsInjector.injectJobs ⟨r, rem, nr, [], []⟩ config docTypeName
        bsCalc jobTrackers).masterJobs.countP IMaintenanceJob.isLidSpaceCompaction) =
        (if config.lidSpaceCompactionConfig.isDisabled then 0 else 3) := by
  obtain ⟨hb, sc, prd, ⟨lscDis, lscBE⟩, ⟨bmBE⟩, attr⟩ := config
  cases lscDis <;> cases lscBE <;> cases bmBE <;>
    simp [MaintenanceJobsInjector.injectJobs, injectLidSpaceCompactionJobs,
      injectBucketMoveJob, MaintenanceController.registerJobInMasterThread,
      MaintenanceController.registerJobInDefaultPool, trackJob,
      List.countP_append, List.countP_cons, IMaintenanceJob.isLidSpaceCompaction,
      IMaintenanceJob.isBucketMove, IMaintenanceJob.unwrap,
      IMaintenanceJob.bucketExecutorStrategy]

/-- C8: `injectJobs` is not idempotent — starting from any controller state,
a second identical call adds the same job multiset again, so the number of
occurrences of every job after two calls exceeds the baseline by exactly twice
what one call adds (equivalently, the counts form an arithmetic progression). -/
theorem MaintenanceJobsInjector.injectJobs_double_registers
    (c : MaintenanceController) (config : DocumentDBMaintenanceConfig)
    (docTypeName : String) (bsCalc : Option IBucketStateCalculator)
    (jobTrackers : DocumentDBJobTrackers) (j : IMaintenanceJob) :
    ((MaintenanceJobsInjector.injectJobs
        (MaintenanceJobsInjector.injectJobs c config docTypeName bsCalc jobTrackers)
        config docTypeName bsCalc jobTrackers).masterJobs.count j
      + c.masterJobs.count j =
      2 * (MaintenanceJobsInjector.injectJobs c config docTypeName bsCalc
            jobTrackers).masterJobs.count j)
    ∧ ((MaintenanceJobsInjector.injectJobs
        (MaintenanceJobsInjector.injectJobs c config docTypeName bsCalc jobTrackers)
        config docTypeName bsCalc jobTrackers).poolJobs.count j
      + c.poolJobs.count j =
      2 * (MaintenanceJobsInjector.injectJobs c config docTypeName bsCalc
            jobTrackers).poolJobs.count j) := by
  obtain ⟨hb, sc, prd, ⟨lscDis, lscBE⟩, ⟨bmBE⟩, attr⟩ := config
  cases lscDis <;> cases lscBE <;> cases bmBE <;>
    simp [MaintenanceJobsInjector.injectJobs, injectLidSpaceCompactionJobs,
      injectBucketMoveJob, MaintenanceController.registerJobInMasterThread,
      MaintenanceController.registerJobInDefaultPool, trackJob,
      List.count_append, List.count_cons, List.count_nil] <;> omega

/-- C9: of all jobs registered by one `injectJobs` call, exactly the
session-cache-prune job goes to the default worker pool; every other job —
heartbeat, removed-document pruning, all lid-space-compaction jobs, the
bucket-move job and attribute-usage sampling — is registered in the master
thread. -/
theorem MaintenanceJobsInjector.only_sessionCachePrune_in_defaultPool
    (r rem nr : MaintenanceDocumentSubDB) (config : DocumentDBMaintenanceConfig)
    (docTypeName : String) (bsCalc : Option IBucketStateCalculator)
    (jobTrackers : DocumentDBJobTrackers) :
    (MaintenanceJobsInjector.injectJobs ⟨r, rem, nr, [], []⟩ config docTypeName
        bsCalc jobTrackers).poolJobs =
      [IMaintenanceJob.pruneSessionCache config.sessionCachePruneInterval]
    ∧ ((MaintenanceJobsInjector.injectJobs ⟨r, rem, nr, [], []⟩ config docTypeName
        bsCalc jobTrackers).masterJobs.countP IMaintenanceJob.isPruneSessionCache) = 0
    ∧ ((MaintenanceJobsInjector.injectJobs ⟨r, rem, nr, [], []⟩ config docTypeName
        bsCalc jobTrackers).masterJobs.countP IMaintenanceJob.isHeartBeat) = 1
    ∧ ((MaintenanceJobsInjector.injectJobs ⟨r, rem, nr, [], []⟩ config docTypeName
        bsCalc jobTrackers).masterJobs.countP
        IMaintenanceJob.isPruneRemovedDocuments) = 1
    ∧ ((MaintenanceJobsInjector.injectJobs ⟨r, rem, nr, [], []⟩ config docTypeName
        bsCalc jobTrackers).masterJobs.countP IMaintenanceJob.isBucketMove) = 1
    ∧ ((MaintenanceJobsInjector.injectJobs ⟨r, rem, nr, [], []⟩ config docTypeName
        bsCalc jobTrackers).masterJobs.countP
        IMaintenanceJob.isSampleAttributeUsage) = 1
    ∧ ((MaintenanceJobsInjector.injectJobs ⟨r, rem, nr, [], []⟩ config docTypeName
        bsCalc jobTrackers).masterJobs.countP
        IMaintenanceJob.isLidSpaceCompaction) =
        (if config.lidSpaceCompactionConfig.isDisabled then 0 else 3)
    ∧ (MaintenanceJobsInjector.injectJobs ⟨r, rem, nr, [], []⟩ config docTypeName
        bsCalc jobTrackers).masterJobs.length =
        (if config.lidSpaceCompactionConfig.isDisabled then 4 else 7) := by
  obtain ⟨hb, sc, prd, ⟨lscDis, lscBE⟩, ⟨bmBE⟩, attr⟩ := config
  cases lscDis <;> cases lscBE <;> cases bmBE <;>
    simp [MaintenanceJobsInjector.injectJobs, injectLidSpaceCompactionJobs,
      injectBucketMoveJob, MaintenanceController.registerJobInMasterThread,
      MaintenanceController.registerJobInDefaultPool, trackJob,
      List.countP_append, List.countP_cons, IMaintenanceJob.isHeartBeat,
      IMaintenanceJob.isPruneSessionCache, IMaintenanceJob.isPruneRemovedDocuments,
      IMaintenanceJob.isSampleAttributeUsage, IMaintenanceJob.isBucketMove,
      IMaintenanceJob.isLidSpaceCompaction, IMaintenanceJob.unwrap]

/-- C10: when the bucket-state calculator is null, every lid-space-compaction
job — under either strategy flag — is constructed with node-retired status
`false`, and the calculator is never read: with lid-space compaction enabled
all three jobs carry `nodeRetired = false`. -/
theorem MaintenanceJobsInjector.null_calc_yields_nodeRetired_false
    (r rem nr : MaintenanceDocumentSubDB) (config : DocumentDBMaintenanceConfig)
    (docTypeName : String) (jobTrackers : DocumentDBJobTrackers) :
    ((MaintenanceJobsInjector.injectJobs ⟨r, rem, nr, [], []⟩ config docTypeName
        none jobTrackers).masterJobs.countP
        (fun j => j.isLidSpaceCompaction && !(j.lscNodeRetired == some false))) = 0
    ∧ ((MaintenanceJobsInjector.injectJobs ⟨r, rem, nr, [], []⟩ config docTypeName
        none jobTrackers).masterJobs.countP IMaintenanceJob.isLidSpaceCompaction) =
        (if config.lidSpaceCompactionConfig.isDisabled then 0 else 3) := by
  obtain ⟨hb, sc, prd, ⟨lscDis, lscBE⟩, ⟨bmBE⟩, attr⟩ := config
  cases lscDis <;> cases lscBE <;> cases bmBE <;>
    simp [MaintenanceJobsInjector.injectJobs, injectLidSpaceCompactionJobs,
      injectBucketMoveJob, MaintenanceController.registerJobInMasterThread,
      MaintenanceController.registerJobInDefaultPool, trackJob,
      List.countP_append, List.countP_cons, IMaintenanceJob.isLidSpaceCompaction,
      IMaintenanceJob.unwrap, IMaintenanceJob.lscNodeRetired]
